import Mathlib

/-
Verification of the statcast repository's shape/label bookkeeping layer.

The repository is glue code around external statistics and plotting
libraries (spec.md sections 1-2).  The embedding below translates the two
source units:

  * `src/statcast/better/mixed.py` - the `BetterLME4` estimator adapter;
  * `src/statcast/tools/plot.py`  - stateless plotting helpers.

External collaborators (lme4 via rpy2, sklearn validators, matplotlib,
the precision-recall metric) are modelled as call records or minimal
validity checks, exactly at the points where the source delegates to them;
everything the source itself computes (guards, length reconciliation,
label formatting, loop structure, return-value selection) is translated
directly.  Python methods that mutate `self` and may raise are embedded as
`State -> State x Option PyErr`: the returned state keeps every mutation
performed before the raise, matching CPython semantics.  Exceptions are an
inductive type with one constructor per raise site, carrying the data that
the source interpolates into the message.
-/

namespace Statcast

/-- Exceptions raised by the translated code, one constructor per raise
site (RuntimeError / KeyError / sklearn validation error / Exception in
plot.py), carrying the values the source formats into the message. -/
inductive PyErr where
  /-- mixed.py:39 `betterLME must have xLabels, yLabels, and formulas defined` -/
  | guardErr : PyErr
  /-- mixed.py:47 `formulas must be a single string, or a tuple the same length as yLabels` -/
  | formulaLenErr : PyErr
  /-- pandas KeyError from `data[labels]` column selection -/
  | keyErr (column : String) : PyErr
  /-- sklearn `check_X_y` / `check_array` validation failure -/
  | checkErr (msg : String) : PyErr
  /-- sklearn `check_is_fitted` failure (mixed.py:93) -/
  | notFittedErr : PyErr
  /-- pandas `DataFrame(X, columns=...)` length mismatch -/
  | dfShapeErr (nCols nLabels : Nat) : PyErr
  /-- plot.py:243 `Y (..) and Yp (..) must have same dimensions` -/
  | shapeErrYYp (yShape ypShape : Nat × Nat) : PyErr
  /-- plot.py:247 `X (..) and Y (..) must have same number of rows` -/
  | rowsErrXY (xRows yRows : Nat) : PyErr
  /-- plot.py:256 `xLabels must have same length (..) as the number of columns of X (..)` -/
  | xLabelsLenErr (got expected : Nat) : PyErr
  /-- plot.py:263 `xUnits must have same length (..) as xLabels (..) if supplied` -/
  | xUnitsLenErr (got expected : Nat) : PyErr
  /-- plot.py:275 `yLabels must have same length (..) as the number of columns of Y (..)` -/
  | yLabelsLenErr (got expected : Nat) : PyErr
  /-- plot.py:284 `yUnits must have same length (..) as yLabels (..) if supplied` -/
  | yUnitsLenErr (got expected : Nat) : PyErr
  /-- plot.py:163 `Number of rows in y & yp must match` -/
  | rowsErrPrecRec (yRows ypRows : Nat) : PyErr
  /-- plot.py:195 `Number of classes in y must match number of columns in yp and number labels.` -/
  | classCountErr (nClasses nCols nLabels : Nat) : PyErr
  /-- plot.py:198 `Number of rows in y & yp must match.` -/
  | rowsErrPrecRecMN (yRows ypRows : Nat) : PyErr
  deriving Repr, DecidableEq

/-! ### numpy arrays

A 2-D ndarray is a list of rows; entries are modelled as integers (no
claim depends on floating-point values, only on shapes and labels). -/

/-- A 2-D numpy array, row-major. -/
abbrev Mat := List (List Int)

/-- `m.shape[0]`. -/
def nRowsM (m : Mat) : Nat := m.length

/-- `m.shape[1]` (numpy arrays are rectangular; the column count is the
length of the first row). -/
def nColsM (m : Mat) : Nat := (m.head?.getD []).length

/-- `m.shape` of a 2-D array. -/
def shape2 (m : Mat) : Nat × Nat := (nRowsM m, nColsM m)

/-- `m[:, j]`. -/
def colOf (m : Mat) (j : Nat) : List Int := m.map fun r => r.getD j 0

/-- The columns of `m`, i.e. the rows of `m.T`. -/
def colsOfM (m : Mat) : List (List Int) := (List.range (nColsM m)).map (colOf m)

/-- `m.T`. -/
def transposeM (m : Mat) : Mat := colsOfM m

/-- A numpy array that may be 1-D or 2-D. -/
inductive Arr where
  | one (v : List Int) : Arr
  | two (m : Mat) : Arr
  deriving Repr, DecidableEq

/-- `if A.ndim == 1: A = A[:, None]` - promote a 1-D array to a
single-column matrix, leave a 2-D array unchanged. -/
def atleast2dCol : Arr → Mat
  | .one v => v.map fun x => [x]
  | .two m => m

/-! ### pandas DataFrames

Column-major: `colVals[i]` holds the values of column `columns[i]`. -/

/-- A pandas DataFrame. -/
structure Frame where
  columns : List String
  colVals : List (List Int)
  deriving Repr, DecidableEq

/-- Number of rows of a DataFrame. -/
def Frame.nRows (f : Frame) : Nat := (f.colVals.head?.getD []).length

/-- `f[name]`: the values of column `name` (first match), `none` if absent. -/
def Frame.getCol (f : Frame) (name : String) : Option (List Int) :=
  ((f.columns.zip f.colVals).find? fun p => p.1 == name).map Prod.snd

/-- `f.values`: the DataFrame's data as a row-major 2-D array. -/
def Frame.values (f : Frame) : Mat :=
  (List.range f.nRows).map fun i => f.colVals.map fun c => c.getD i 0

/-- An argument that may be a pandas DataFrame or a numpy array
(`correlationPlot` accepts both). -/
inductive PdInput where
  | df (f : Frame) : PdInput
  | arr (a : Arr) : PdInput
  deriving Repr, DecidableEq

/-- The underlying array of a `PdInput` (`.values` for a DataFrame). -/
def PdInput.toArr : PdInput → Arr
  | .df f => .two f.values
  | .arr a => a

/-! ### plot.py: correlationPlot -/

/-- One figure produced by `correlationPlot`: the scatter of one response
column against its prediction, with its label and unit.  The overlaid
RMSE/R2/MAE legend text (plot.py:59-61, 84-87) is rendering content handed
to matplotlib and is determined by `y`/`yp`. -/
structure CorrFig where
  y : List Int
  yp : List Int
  label : Option String
  unit : Option String
  deriving Repr, DecidableEq

/-- Zip four lists (Python `zip(a, b, c, d)`); the result has the length
of the shortest list. -/
def zip4 {α β γ δ : Type} (as : List α) (bs : List β) (cs : List γ) (ds : List δ) :
    List (α × β × γ × δ) :=
  (as.zip (bs.zip (cs.zip ds))).map fun x => (x.1, x.2.1, x.2.2.1, x.2.2.2)

/-- `correlationPlot` (plot.py lines 26-91).  DataFrames contribute their
column names as default labels and are replaced by `.values`; 1-D arrays
become column vectors; row vectors are transposed; missing labels/units
default to `None` per column.  The figures come from
`zip(Y.T, Yp.T, labels, units)`: `zip` captures the label list when the
iterator is built, so the rebinding of the name `labels` inside the loop
body (plot.py:84) does not affect the iteration. -/
def correlationPlot (Y Yp : PdInput) (labels units : Option (List String)) :
    List CorrFig :=
  let labels := match Y, labels with
    | .df f, none => some f.columns
    | _, _ => labels
  let Y2 := atleast2dCol Y.toArr
  let Yp2 := atleast2dCol Yp.toArr
  let Y3 := if nRowsM Y2 = 1 then transposeM Y2 else Y2
  let Yp3 := if nRowsM Yp2 = 1 then transposeM Yp2 else Yp2
  let labelsL : List (Option String) := match labels with
    | none => List.replicate (nColsM Y3) none
    | some ls => ls.map some
  let unitsL : List (Option String) := match units with
    | none => List.replicate (nColsM Y3) none
    | some ls => ls.map some
  (zip4 (colsOfM Y3) (colsOfM Yp3) labelsL unitsL).map fun q =>
    { y := q.1, yp := q.2.1, label := q.2.2.1, unit := q.2.2.2 }

/-! ### plot.py: plotResiduals -/

/-- One subplot of a `plotResiduals` figure: the residuals `Yp[:,j]-Y[:,j]`
of one response against one predictor column, labelled with the formatted
response label. -/
structure ResPanel where
  yLabel : String
  x : List Int
  resid : List Int
  deriving Repr, DecidableEq

/-- One figure produced by `plotResiduals`: one predictor column, one
subplot per response. -/
structure ResFig where
  xLabel : String
  panels : List ResPanel
  deriving Repr, DecidableEq

/-- `plotResiduals` (plot.py lines 230-300).  Inputs are numpy arrays (an
ndarray has no `columns` attribute, so the `try` at lines 251-254 and
270-273 takes its `except` branch and defaults the labels to empty
strings).  All validation happens before any figure is built; the figure
loop then makes one figure per entry of `xLabels`. -/
def plotResiduals (X Y Yp : Arr)
    (xLabels xUnits yLabels yUnits : Option (List String)) :
    Except PyErr (List ResFig) :=
  let Xm := atleast2dCol X
  let Ym := atleast2dCol Y
  let Ypm := atleast2dCol Yp
  if shape2 Ym ≠ shape2 Ypm then
    .error (.shapeErrYYp (shape2 Ym) (shape2 Ypm))
  else if nRowsM Xm ≠ nRowsM Ym then
    .error (.rowsErrXY (nRowsM Xm) (nRowsM Ym))
  else
    match (match xLabels with
      | none => .ok (List.replicate (nColsM Xm) "")
      | some ls =>
          if ls.length ≠ nColsM Xm then
            .error (.xLabelsLenErr ls.length (nColsM Xm))
          else .ok ls : Except PyErr (List String)) with
    | .error e => .error e
    | .ok xL =>
      match (match xUnits with
        | none => .ok xL
        | some us =>
            if us.length ≠ xL.length then
              .error (.xUnitsLenErr us.length xL.length)
            else .ok (xL.zipWith (fun l u => l ++ " (" ++ u ++ ")") us) :
          Except PyErr (List String)) with
      | .error e => .error e
      | .ok xL2 =>
        match (match yLabels with
          | none => .ok (List.replicate (nColsM Ym) "")
          | some ls =>
              if ls.length ≠ nColsM Ym then
                .error (.yLabelsLenErr ls.length (nColsM Ym))
              else .ok ls : Except PyErr (List String)) with
        | .error e => .error e
        | .ok yL =>
          let yLe := yL.map fun l => l ++ " Error"
          match (match yUnits with
            | none => .ok yLe
            | some us =>
                if us.length ≠ yLe.length then
                  .error (.yUnitsLenErr us.length yLe.length)
                else .ok (yLe.zipWith (fun l u => l ++ " (" ++ u ++ ")") us) :
              Except PyErr (List String)) with
          | .error e => .error e
          | .ok yL2 =>
            .ok <| (xL2.enum).map fun xi =>
              { xLabel := xi.2
                panels := (yL2.enum).map fun yj =>
                  { yLabel := yj.2
                    x := colOf Xm xi.1
                    resid := (colOf Ypm yj.1).zipWith (· - ·) (colOf Ym yj.1) } }

/-! ### plot.py: plotPrecRec / plotPrecRecMN -/

/-- The handle a plotting function returns: the figure it created, or the
axis it was given (axes are opaque handles, modelled as numbers). -/
inductive PlotHandle where
  | fig : PlotHandle
  | axis (a : Nat) : PlotHandle
  deriving Repr, DecidableEq

/-- `plotPrecRec` (plot.py lines 155-176).  When `ax` is `None` a figure is
created first (recorded in the first component even when the row check then
raises); the `try: return fig / except NameError: return ax` idiom returns
the created figure exactly when `ax` was `None`, and the supplied axis
otherwise.  The precision-recall computation and the drawing are delegated
to sklearn/matplotlib and do not affect the returned handle. -/
def plotPrecRec (y yp : List Int) (ax : Option Nat) (label : Option String) :
    Nat × Except PyErr PlotHandle :=
  let figsMade := if ax.isNone then 1 else 0
  if y.length ≠ yp.length then
    (figsMade, .error (.rowsErrPrecRec y.length yp.length))
  else
    (figsMade, match ax with
      | none => .ok .fig
      | some a => .ok (.axis a))

/-- Insert a value into a sorted list (insertion-sort step). -/
def insertSorted (x : Int) : List Int → List Int
  | [] => [x]
  | y :: ys => if x ≤ y then x :: y :: ys else y :: insertSorted x ys

/-- Sort a list of integers in increasing order (Python `sorted`). -/
def sortInts (l : List Int) : List Int := l.foldr insertSorted []

/-- `np.unique(y)`: the distinct values of `y` in increasing order. -/
def npUnique (l : List Int) : List Int := (sortInts l).dedup

/-- A 1-D pandas Series / numpy array argument, as a Python object: `id` is
its CPython object identity, `vals` its entries, `catCategories` the
categories when the underlying dtype is categorical. -/
structure PySeries where
  id : Nat
  vals : List Int
  catCategories : Option (List Int) := none
  deriving Repr, DecidableEq

/-- The class set computed by `plotPrecRecMN` (plot.py lines 186-189).  The
source tests `y is pd.api.types.CategoricalDtype()`: an identity comparison
between the argument `y` and a CategoricalDtype instance constructed fresh
inside the call.  `freshId` is the identity of that fresh instance; CPython
guarantees it differs from the identity of every object alive before the
allocation, in particular from `y.id`. -/
def mnClasses (freshId : Nat) (y : PySeries) : List Int :=
  if y.id == freshId then sortInts (y.catCategories.getD [])
  else npUnique y.vals

/-- `plotPrecRecMN` (plot.py lines 179-227).  Figure creation, the class
set, the two validation checks, and the `try`/`except NameError` return
idiom, in source order.  Default `labels` are the classes themselves, so
`len(labels)` defaults to the class count. -/
def plotPrecRecMN (freshId : Nat) (y : PySeries) (yp : Mat) (ax : Option Nat)
    (labels : Option (List String)) : Nat × Except PyErr PlotHandle :=
  let figsMade := if ax.isNone then 1 else 0
  let classes := mnClasses freshId y
  let nLabels := match labels with
    | none => classes.length
    | some ls => ls.length
  if ¬(classes.length = nColsM yp ∧ nColsM yp = nLabels) then
    (figsMade, .error (.classCountErr classes.length (nColsM yp) nLabels))
  else if y.vals.length ≠ nRowsM yp then
    (figsMade, .error (.rowsErrPrecRecMN y.vals.length (nRowsM yp)))
  else
    (figsMade, match ax with
      | none => .ok .fig
      | some a => .ok (.axis a))

/-! ### mixed.py: the BetterLME4 estimator adapter

Mutating methods that may raise are embedded as
`LMEState -> LMEState x Option PyErr`: the state component keeps every
assignment made before the raise. -/

/-- The `formulas` attribute: a single string or a tuple of strings
(mixed.py accepts both; `fitD` normalises a string to a 1-tuple). -/
inductive Formulas where
  | str (f : String) : Formulas
  | tup (fs : List String) : Formulas
  deriving Repr, DecidableEq

/-- Python truthiness of `formulas` as used by `any((...))` at mixed.py:38:
an empty string and an empty tuple are falsy. -/
def Formulas.truthy : Formulas → Bool
  | .str f => f != ""
  | .tup fs => !fs.isEmpty

/-- The tuple content of `formulas` once a bare string counts as wrapped. -/
def Formulas.toList : Formulas → List String
  | .str f => [f]
  | .tup fs => fs

/-- Python tuple repetition `t * n`: `n` concatenated copies of `t`
(mixed.py:45 `self.formulas = self.formulas * len(self.yLabels)`). -/
def tupMul (t : List String) (n : Nat) : List String :=
  (List.replicate n t).flatten

/-- A fitted lme4 model handle: `rLME4.lmer` is an external call, modelled
as the record of the arguments the adapter passes it
(mixed.py:56-58 `lmer(formula=formula, data=subData, **self.LME4Params)`). -/
structure RModel where
  formula : String
  data : Frame
  params : List (String × String)
  deriving Repr, DecidableEq

/-- The external `rLME4.lmer` call (mixed.py:56). -/
def lmer (formula : String) (data : Frame) (params : List (String × String)) :
    RModel := ⟨formula, data, params⟩

/-- The coefficient map `BetterLME4._factor` extracts from a model via the
external `rLME4.random_effects` / `rLME4.fixed_effects` calls
(mixed.py:74-88); modelled as determined by the model handle. -/
structure RFactor where
  model : RModel
  deriving Repr, DecidableEq

/-- `BetterLME4._factor` (mixed.py:74-88). -/
def rFactor (m : RModel) : RFactor := ⟨m⟩

/-- One call the adapter makes to the external `GridSearchCV`
cross-validation routine (mixed.py:131-133): the estimator's single
response label at call time, the candidate formulas of `param_grid`, and
the `n_jobs`, `cv`, `refit` arguments as passed. -/
structure GSCVCall where
  yLabel : String
  formulas : List String
  n_jobs : Int
  cv : Option Int
  refit : Bool
  deriving Repr, DecidableEq

/-- The attributes of a `BetterLME4` instance that the translated methods
read or assign.  `models?`/`factors?`/`cvResults?` are `none` while the
corresponding `models_`/`factors_`/`cv_results_` attribute is unset. -/
structure LMEState where
  xLabels : List String
  yLabels : List String
  formulas : Formulas
  LME4Params : List (String × String) := []
  models? : Option (List (String × RModel)) := none
  factors? : Option (List (String × RFactor)) := none
  cvResults? : Option (List GSCVCall) := none
  deriving Repr, DecidableEq

/-- Select the given columns of `data` in order (`data[labels]`), raising
`KeyError` on the first absent column. -/
def collectCols (data : Frame) : List String → Except PyErr (List (List Int))
  | [] => .ok []
  | n :: ns =>
    match data.getCol n with
    | none => .error (.keyErr n)
    | some c =>
      match collectCols data ns with
      | .error e => .error e
      | .ok cs => .ok (c :: cs)

/-- `BetterLME4.createX` (mixed.py:64-72): the `xLabels` columns of `data`.
The loop at lines 68-70 would convert categorical columns, but its
condition compares `X[xLabel].dtype` by identity (`is`) against a freshly
constructed `CategoricalDtype` instance - the same always-false pattern as
in `mnClasses` - so it never converts anything and the selection is the
whole effect. -/
def createX (s : LMEState) (data : Frame) : Except PyErr Frame :=
  match collectCols data s.xLabels with
  | .error e => .error e
  | .ok cs => .ok ⟨s.xLabels, cs⟩

/-- Modelled from the spec: `BetterModel.createY` lives in
`better/base.py`, which is not among the sources.  Per the spec's data
model (the response matrix is the `yLabels` part of the tabular data), it
selects the `yLabels` columns of `data`. -/
def createY (s : LMEState) (data : Frame) : Except PyErr Frame :=
  match collectCols data s.yLabels with
  | .error e => .error e
  | .ok cs => .ok ⟨s.yLabels, cs⟩

/-- The external sklearn `check_X_y(X, Y, multi_output=True, dtype=None)`
validation (mixed.py:50): `X` and `Y` must agree in row count and be
non-empty. -/
def checkXY (X Y : Frame) : Option PyErr :=
  if X.nRows ≠ Y.nRows then
    some (.checkErr "inconsistent numbers of samples")
  else if X.nRows = 0 then
    some (.checkErr "0 sample(s) while a minimum of 1 is required")
  else none

/-- The external sklearn `check_array(X, dtype=None)` validation on a
DataFrame (mixed.py:96): at least one sample. -/
def checkArrayF (X : Frame) : Option PyErr :=
  if X.nRows = 0 then
    some (.checkErr "0 sample(s) while a minimum of 1 is required")
  else none

/-- The external sklearn `check_array(X, dtype=None)` validation on a
numpy array (mixed.py:110): at least one sample. -/
def checkArrayM (X : Mat) : Option PyErr :=
  if nRowsM X = 0 then
    some (.checkErr "0 sample(s) while a minimum of 1 is required")
  else none

/-- The formula/label reconciliation of `fitD` (mixed.py:41-48): a bare
string becomes a 1-tuple; a 1-tuple whose length differs from
`len(yLabels)` is broadcast by tuple repetition; any other length mismatch
raises `RuntimeError`. -/
def reconcileFormulas (s : LMEState) : LMEState × Option PyErr :=
  let s1 := match s.formulas with
    | .str f => { s with formulas := .tup [f] }
    | .tup _ => s
  if s1.formulas.toList.length = s1.yLabels.length then (s1, none)
  else if s1.formulas.toList.length = 1 then
    ({ s1 with formulas := .tup (tupMul s1.formulas.toList s1.yLabels.length) },
     none)
  else (s1, some .formulaLenErr)

/-- The fitting phase of `fitD` (mixed.py:49-62): build `X` and `Y`,
validate them, then fit one lme4 model per response label with the
formula `yLabel + ' ~ ' + formulas[ii]` on `X` extended by that response
column, and assign `models_` and `factors_`. -/
def fitModels (s : LMEState) (data : Frame) : LMEState × Option PyErr :=
  match createX s data with
  | .error e => (s, some e)
  | .ok X =>
    match createY s data with
    | .error e => (s, some e)
    | .ok Y =>
      match checkXY X Y with
      | some e => (s, some e)
      | none =>
        let fits := (s.yLabels.zip s.formulas.toList).map fun p =>
          (p.1, lmer (p.1 ++ " ~ " ++ p.2)
                     ⟨X.columns ++ [p.1], X.colVals ++ [(Y.getCol p.1).getD []]⟩
                     s.LME4Params)
        ({ s with models? := some fits,
                  factors? := some (fits.map fun q => (q.1, rFactor q.2)) },
         none)

/-- `BetterLME4.fitD` (mixed.py:35-62): the all-empty configuration guard,
formula/label reconciliation, then model fitting. -/
def fitD (s : LMEState) (data : Frame) : LMEState × Option PyErr :=
  if !(!s.xLabels.isEmpty || !s.yLabels.isEmpty || s.formulas.truthy) then
    (s, some .guardErr)
  else
    match reconcileFormulas s with
    | (s1, some e) => (s1, some e)
    | (s1, none) => fitModels s1 data

/-- The prediction loop of `predictD` (mixed.py:99-103): for each response
label in order, look the fitted model up in `models_` (a `KeyError` if
absent) and obtain that model's predictions from the external
`rLME4.predict_merMod` routine `rpred`. -/
def predictCols (rpred : RModel → Frame → List Int)
    (models : List (String × RModel)) (X : Frame) :
    List String → Except PyErr (List (List Int))
  | [] => .ok []
  | l :: ls =>
    match (models.find? fun p => p.1 == l).map Prod.snd with
    | none => .error (.keyErr l)
    | some m =>
      match predictCols rpred models X ls with
      | .error e => .error e
      | .ok cs => .ok (rpred m X :: cs)

/-- `BetterLME4.predictD` (mixed.py:90-105): require a fitted estimator,
build and validate the design matrix, then assemble a DataFrame whose
columns are the response labels in order, each holding the external
package's predictions for that response.  `rpred` is the external
`rLME4.predict_merMod(model, newdata=X, allow_new_levels=True)` call. -/
def predictD (rpred : RModel → Frame → List Int) (s : LMEState)
    (data : Frame) : Except PyErr Frame :=
  if s.models?.isNone || s.factors?.isNone then .error .notFittedErr
  else
    match createX s data with
    | .error e => .error e
    | .ok X =>
      match checkArrayF X with
      | some e => .error e
      | none =>
        match predictCols rpred (s.models?.getD []) X s.yLabels with
        | .error e => .error e
        | .ok cs => .ok ⟨s.yLabels, cs⟩

/-- `pd.DataFrame(X, columns=labels)` (mixed.py:111): a column-major frame
from a row-major array; pandas raises when the label count does not match
the column count. -/
def mkDataFrame (X : Mat) (labels : List String) : Except PyErr Frame :=
  if labels.length ≠ nColsM X then .error (.dfShapeErr (nColsM X) labels.length)
  else .ok ⟨labels, colsOfM X⟩

/-- `BetterLME4.predict` (mixed.py:107-111): validate `X`, then delegate to
`predictD` on a DataFrame built from `X` with columns `xLabels`. -/
def predict (rpred : RModel → Frame → List Int) (s : LMEState) (X : Mat) :
    Except PyErr Frame :=
  match checkArrayM X with
  | some e => .error e
  | none =>
    match mkDataFrame X s.xLabels with
    | .error e => .error e
    | .ok d => predictD rpred s d

/-- The per-response loop of `chooseFormula` (mixed.py:128-135).  For each
remaining response label: set `self.yLabels` to that single label, build
the design and response matrices, and hand the estimator to the external
`GridSearchCV(self, param_grid, n_jobs=n_jobs, cv=cv, refit=False)`
routine, whose chosen formula `gscv` returns; record the call in
`cv_results_` and collect the best formula.  An exception inside the loop
propagates with the mutations made so far kept. -/
def chooseLoop (gscv : GSCVCall → String) (data : Frame)
    (formulas : List String) (n_jobs : Int) (cv : Option Int)
    (s : LMEState) (choices : List String) :
    List String → LMEState × List String × Option PyErr
  | [] => (s, choices, none)
  | l :: ls =>
    let s1 := { s with yLabels := [l] }
    match createX s1 data with
    | .error e => (s1, choices, some e)
    | .ok _ =>
      match createY s1 data with
      | .error e => (s1, choices, some e)
      | .ok _ =>
        let call : GSCVCall :=
          { yLabel := l, formulas := formulas, n_jobs := n_jobs, cv := cv,
            refit := false }
        let s2 := { s1 with cvResults? := some ((s1.cvResults?.getD []) ++ [call]) }
        chooseLoop gscv data formulas n_jobs cv s2 (choices ++ [gscv call]) ls

/-- `BetterLME4.chooseFormula` (mixed.py:121-143): reset `cv_results_`,
run the grid search once per response label, then assign the chosen
formulas, restore `yLabels` to the saved full list, and refit when asked.
The recorded `GSCVCall`s are exactly the arguments handed to the external
routine. -/
def chooseFormula (gscv : GSCVCall → String) (s : LMEState) (data : Frame)
    (formulas : List String) (n_jobs : Int) (cv : Option Int)
    (refit : Bool) : LMEState × Option PyErr :=
  let s0 := { s with cvResults? := some [] }
  let yLabels := s0.yLabels
  match chooseLoop gscv data formulas n_jobs cv s0 [] yLabels with
  | (s1, _, some e) => (s1, some e)
  | (s1, choices, none) =>
    let s2 := { s1 with formulas := .tup choices, yLabels := yLabels }
    if refit then fitD s2 data else (s2, none)

/-! ### Helper lemmas -/

theorem tupMul_singleton (f : String) (n : Nat) :
    tupMul [f] n = List.replicate n f := by
  induction n with
  | zero => rfl
  | succ k ih =>
    simp only [tupMul, List.replicate_succ, List.flatten_cons] at ih ⊢
    simp [ih]

theorem fitD_guard_passes (s : LMEState) (d : Frame) (h : s.yLabels ≠ []) :
    fitD s d = match reconcileFormulas s with
      | (s1, some e) => (s1, some e)
      | (s1, none) => fitModels s1 d := by
  unfold fitD
  have hb : s.yLabels.isEmpty = false := by
    simpa [List.isEmpty_iff] using h
  simp [hb]

theorem reconcileFormulas_single (s : LMEState) (f : String)
    (hf : s.formulas = .str f ∨ s.formulas = .tup [f]) :
    reconcileFormulas s =
      ({ s with formulas := .tup (List.replicate s.yLabels.length f) }, none) := by
  obtain ⟨xL, yL, fm, pr, mo, fa, cv⟩ := s
  rcases hf with hf | hf <;> cases hf <;>
  · by_cases hn : yL.length = 1
    · simp [reconcileFormulas, Formulas.toList, hn, List.replicate]
    · have hn' : ¬(1 = yL.length) := fun h => hn h.symm
      simp [reconcileFormulas, Formulas.toList, hn', tupMul_singleton]

theorem fitModels_fst (s : LMEState) (d : Frame) :
    (fitModels s d).1.formulas = s.formulas ∧
    (fitModels s d).1.yLabels = s.yLabels ∧
    (fitModels s d).1.xLabels = s.xLabels ∧
    (fitModels s d).1.cvResults? = s.cvResults? := by
  unfold fitModels
  rcases hx : createX s d with e | X
  · simp
  · rcases hy : createY s d with e | Y
    · simp
    · rcases hc : checkXY X Y with _ | e
      · simp [hc]
      · simp [hc]

theorem reconcileFormulas_fst (s : LMEState) :
    (reconcileFormulas s).1.yLabels = s.yLabels ∧
    (reconcileFormulas s).1.xLabels = s.xLabels ∧
    (reconcileFormulas s).1.cvResults? = s.cvResults? ∧
    (reconcileFormulas s).1.models? = s.models? ∧
    (reconcileFormulas s).1.factors? = s.factors? := by
  obtain ⟨xL, yL, fm, pr, mo, fa, cv⟩ := s
  cases fm <;>
  · dsimp only [reconcileFormulas]
    split
    · simp
    · split <;> simp

/-- C1: when `formulas` is a single string or a length-1 tuple and
`yLabels` is non-empty with `n` entries, `fitD` replaces `self.formulas`
with a tuple of length `n` whose every element is that single formula, so
each response label is fitted with the same formula. -/
theorem fitD_single_formula_broadcast (s : LMEState) (d : Frame) (f : String)
    (hf : s.formulas = .str f ∨ s.formulas = .tup [f])
    (hy : s.yLabels ≠ []) :
    (fitD s d).1.formulas = .tup (List.replicate s.yLabels.length f) := by
  rw [fitD_guard_passes s d hy, reconcileFormulas_single s f hf]
  exact (fitModels_fst _ d).1

/-- Witness for C1: a single string formula with two response labels is
broadcast to a 2-tuple of that formula. -/
theorem fitD_single_formula_broadcast_witness :
    (fitD ⟨["x"], ["a", "b"], .str "f", [], none, none, none⟩
        ⟨["x", "a", "b"], [[1, 2], [3, 4], [5, 6]]⟩).1.formulas =
      .tup (List.replicate 2 "f") :=
  fitD_single_formula_broadcast
    ⟨["x"], ["a", "b"], .str "f", [], none, none, none⟩
    ⟨["x", "a", "b"], [[1, 2], [3, 4], [5, 6]]⟩ "f"
    (Or.inl rfl) (by decide)

/-- C2: when `formulas`, after a bare string is wrapped into a 1-tuple,
has a length that is neither 1 nor `len(yLabels)`, `fitD` raises the
`RuntimeError` of mixed.py:47 and assigns neither `models_` nor
`factors_`. -/
theorem fitD_formula_length_mismatch_raises (s : LMEState) (d : Frame)
    (h1 : s.formulas.toList.length ≠ 1)
    (hn : s.formulas.toList.length ≠ s.yLabels.length) :
    (fitD s d).2 = some .formulaLenErr ∧
    (fitD s d).1.models? = s.models? ∧
    (fitD s d).1.factors? = s.factors? := by
  obtain ⟨xL, yL, fm, pr, mo, fa, cv⟩ := s
  cases fm with
  | str f => simp [Formulas.toList] at h1
  | tup fs =>
    simp only [Formulas.toList] at h1 hn
    have hy : yL ≠ [] ∨ fs ≠ [] := by
      rcases fs with _ | ⟨g, gs⟩
      · exact Or.inl fun h => hn (by simp [h])
      · exact Or.inr (by simp)
    have hguard :
        (!(!xL.isEmpty || !yL.isEmpty ||
            Formulas.truthy (Formulas.tup fs))) = false := by
      rcases hy with hy | hy <;>
        simp [Formulas.truthy, List.isEmpty_iff, hy]
    unfold fitD
    simp only [hguard, Bool.false_eq_true, if_false]
    simp [reconcileFormulas, Formulas.toList, hn, h1]

/-- Witness for C2: a 2-tuple of formulas with three response labels
raises the length-mismatch error and leaves `models_`/`factors_` unset. -/
theorem fitD_formula_length_mismatch_raises_witness :
    (fitD ⟨["x"], ["a", "b", "c"], .tup ["f", "g"], [], none, none, none⟩
        ⟨["x"], [[1]]⟩).2 = some .formulaLenErr ∧
    (fitD ⟨["x"], ["a", "b", "c"], .tup ["f", "g"], [], none, none, none⟩
        ⟨["x"], [[1]]⟩).1.models? = none ∧
    (fitD ⟨["x"], ["a", "b", "c"], .tup ["f", "g"], [], none, none, none⟩
        ⟨["x"], [[1]]⟩).1.factors? = none :=
  fitD_formula_length_mismatch_raises
    ⟨["x"], ["a", "b", "c"], .tup ["f", "g"], [], none, none, none⟩
    ⟨["x"], [[1]]⟩ (by decide) (by decide)

theorem collectCols_error_keyErr (data : Frame) (ls : List String) (e : PyErr)
    (h : collectCols data ls = .error e) : ∃ c, e = .keyErr c := by
  induction ls with
  | nil => simp [collectCols] at h
  | cons n ns ih =>
    unfold collectCols at h
    rcases hc : data.getCol n with _ | c <;> rw [hc] at h
    · exact ⟨n, by injection h with h; exact h.symm⟩
    · rcases hr : collectCols data ns with e' | cs <;> rw [hr] at h
      · cases Except.error.inj h
        exact ih hr
      · simp at h

theorem reconcileFormulas_snd (s : LMEState) :
    (reconcileFormulas s).2 = none ∨
    (reconcileFormulas s).2 = some .formulaLenErr := by
  obtain ⟨xL, yL, fm, pr, mo, fa, cv⟩ := s
  cases fm <;>
  · dsimp only [reconcileFormulas]
    split
    · simp
    · split <;> simp

theorem fitModels_snd_ne_guardErr (s : LMEState) (d : Frame) :
    (fitModels s d).2 ≠ some .guardErr := by
  unfold fitModels createX createY
  rcases hx : collectCols d s.xLabels with e | xs
  · obtain ⟨c, rfl⟩ := collectCols_error_keyErr d s.xLabels e hx
    simp [hx]
  · rcases hy : collectCols d s.yLabels with e | ys
    · obtain ⟨c, rfl⟩ := collectCols_error_keyErr d s.yLabels e hy
      simp [hx, hy]
    · rcases hc : checkXY ⟨s.xLabels, xs⟩ ⟨s.yLabels, ys⟩ with _ | e
      · simp [hx, hy, hc]
      · have he : ∃ msg, e = .checkErr msg := by
          unfold checkXY at hc
          split at hc
          · exact ⟨_, (Option.some.inj hc).symm⟩
          · split at hc
            · exact ⟨_, (Option.some.inj hc).symm⟩
            · simp at hc
        obtain ⟨msg, rfl⟩ := he
        simp [hx, hy, hc]

/-- C4: the configuration guard of `fitD` (mixed.py:38-40) raises exactly
when `xLabels`, `yLabels` and `formulas` are all empty; when at least one
of the three is non-empty the guard passes and execution proceeds to the
subsequent steps (which can only fail with other, distinct errors). -/
theorem fitD_guard_iff_all_empty (s : LMEState) (d : Frame) :
    (fitD s d).2 = some .guardErr ↔
      s.xLabels = [] ∧ s.yLabels = [] ∧ s.formulas.truthy = false := by
  constructor
  · intro h
    by_contra hc
    have hguard :
        (!(!s.xLabels.isEmpty || !s.yLabels.isEmpty || s.formulas.truthy))
          = false := by
      rcases Decidable.em (s.xLabels = []) with hx | hx
      · rcases Decidable.em (s.yLabels = []) with hy | hy
        · have ht : s.formulas.truthy = true := by
            rcases Decidable.em (s.formulas.truthy = false) with hf | hf
            · exact absurd ⟨hx, hy, hf⟩ hc
            · revert hf; cases s.formulas.truthy <;> simp
          simp [ht]
        · simp [List.isEmpty_iff, hy]
      · simp [List.isEmpty_iff, hx]
    unfold fitD at h
    rw [hguard] at h
    simp only [Bool.false_eq_true, if_false] at h
    rcases hr : reconcileFormulas s with ⟨s1, e?⟩
    rw [hr] at h
    cases e? with
    | some e =>
      have he : e = .formulaLenErr := by
        rcases reconcileFormulas_snd s with h2 | h2 <;> rw [hr] at h2 <;>
          simp_all
      simp only [he] at h
      exact PyErr.noConfusion (Option.some.inj h)
    | none => exact fitModels_snd_ne_guardErr s1 d (by simpa using h)
  · rintro ⟨hx, hy, hf⟩
    unfold fitD
    simp [hx, hy, hf]

/-- C8: the categorical branch of `plotPrecRecMN` (plot.py:186-187) is
dead code: the condition compares the argument `y` by object identity
(`is`) with a `CategoricalDtype` instance constructed fresh inside the
call, whose identity differs from that of every object alive before the
allocation; the class set is therefore always `np.unique(y)`. -/
theorem mnClasses_always_npUnique (freshId : Nat) (y : PySeries)
    (halloc : y.id ≠ freshId) :
    mnClasses freshId y = npUnique y.vals := by
  unfold mnClasses
  simp [halloc]

/-- Witness for C8: a categorical series whose `cat.categories` differ
from its distinct values still gets its classes from `np.unique`. -/
theorem mnClasses_always_npUnique_witness :
    mnClasses 7 ⟨3, [2, 0, 2], some [5, 6]⟩ = npUnique [2, 0, 2] :=
  mnClasses_always_npUnique 7 ⟨3, [2, 0, 2], some [5, 6]⟩ (by decide)

/-- C6: `plotPrecRec` raises whenever `y` and `yp` have different numbers
of rows; `plotPrecRecMN` raises whenever the number of distinct classes of
`y`, the number of columns of `yp`, and the number of labels (the class
count when `labels` is omitted) are not all equal, or the row counts of
`y` and `yp` differ.  The hypothesis `y.id ≠ freshId` is CPython's
guarantee that the argument is not the `CategoricalDtype` instance freshly
allocated inside the call. -/
theorem precRec_mismatch_raises :
    (∀ (y yp : List Int) (ax : Option Nat) (label : Option String),
      y.length ≠ yp.length →
      ∃ e, (plotPrecRec y yp ax label).2 = .error e) ∧
    (∀ (freshId : Nat) (y : PySeries) (yp : Mat) (ax : Option Nat)
        (labels : Option (List String)),
      y.id ≠ freshId →
      (¬((npUnique y.vals).length = nColsM yp ∧
         nColsM yp = (match labels with
           | none => (npUnique y.vals).length
           | some ls => ls.length)) ∨
       y.vals.length ≠ nRowsM yp) →
      ∃ e, (plotPrecRecMN freshId y yp ax labels).2 = .error e) := by
  constructor
  · intro y yp ax label h
    unfold plotPrecRec
    simp [h]
  · intro freshId y yp ax labels halloc h
    dsimp only [plotPrecRecMN]
    rw [mnClasses_always_npUnique freshId y halloc]
    rcases h with h | h
    · exact ⟨_, by rw [if_pos h]⟩
    · by_cases hcl : (npUnique y.vals).length = nColsM yp ∧
        nColsM yp = (match labels with
          | none => (npUnique y.vals).length
          | some ls => ls.length)
      · exact ⟨_, by rw [if_neg (not_not_intro hcl), if_pos h]⟩
      · exact ⟨_, by rw [if_pos hcl]⟩

/-- Witness for C6: two rows of `y` against three of `yp` raise in
`plotPrecRec`; two classes against a single-column `yp` raise in
`plotPrecRecMN`. -/
theorem precRec_mismatch_raises_witness :
    (∃ e, (plotPrecRec [0, 1] [0, 1, 1] none none).2 = .error e) ∧
    (∃ e, (plotPrecRecMN 5 ⟨0, [0, 1], none⟩ [[1], [2]] none none).2 =
      .error e) :=
  ⟨precRec_mismatch_raises.1 [0, 1] [0, 1, 1] none none (by decide),
   precRec_mismatch_raises.2 5 ⟨0, [0, 1], none⟩ [[1], [2]] none none
     (by decide) (Or.inl (by decide))⟩

/-- C9: with `ax=None`, `plotPrecRec` and `plotPrecRecMN` create exactly
one figure and, when they return, return that figure's handle; with a
supplied axis they create no figure and return that same axis handle
(the `try: return fig / except NameError: return ax` idiom). -/
theorem precRec_fig_ax_semantics :
    (∀ (y yp : List Int) (label : Option String),
      (plotPrecRec y yp none label).1 = 1 ∧
      ∀ h, (plotPrecRec y yp none label).2 = .ok h → h = .fig) ∧
    (∀ (y yp : List Int) (a : Nat) (label : Option String),
      (plotPrecRec y yp (some a) label).1 = 0 ∧
      ∀ h, (plotPrecRec y yp (some a) label).2 = .ok h → h = .axis a) ∧
    (∀ (freshId : Nat) (y : PySeries) (yp : Mat)
        (labels : Option (List String)),
      (plotPrecRecMN freshId y yp none labels).1 = 1 ∧
      ∀ h, (plotPrecRecMN freshId y yp none labels).2 = .ok h → h = .fig) ∧
    (∀ (freshId : Nat) (y : PySeries) (yp : Mat) (a : Nat)
        (labels : Option (List String)),
      (plotPrecRecMN freshId y yp (some a) labels).1 = 0 ∧
      ∀ h, (plotPrecRecMN freshId y yp (some a) labels).2 = .ok h →
        h = .axis a) := by
  refine ⟨fun y yp label => ⟨?_, fun h hh => ?_⟩,
          fun y yp a label => ⟨?_, fun h hh => ?_⟩,
          fun freshId y yp labels => ⟨?_, fun h hh => ?_⟩,
          fun freshId y yp a labels => ⟨?_, fun h hh => ?_⟩⟩
  · dsimp only [plotPrecRec]; split <;> rfl
  · dsimp only [plotPrecRec] at hh
    split at hh
    · exact absurd hh (by simp)
    · exact (Except.ok.inj hh).symm
  · dsimp only [plotPrecRec]; split <;> rfl
  · dsimp only [plotPrecRec] at hh
    split at hh
    · exact absurd hh (by simp)
    · exact (Except.ok.inj hh).symm
  · dsimp only [plotPrecRecMN]; split
    · rfl
    · split <;> rfl
  · dsimp only [plotPrecRecMN] at hh
    split at hh
    · exact absurd hh (by simp)
    · split at hh
      · exact absurd hh (by simp)
      · exact (Except.ok.inj hh).symm
  · dsimp only [plotPrecRecMN]; split
    · rfl
    · split <;> rfl
  · dsimp only [plotPrecRecMN] at hh
    split at hh
    · exact absurd hh (by simp)
    · split at hh
      · exact absurd hh (by simp)
      · exact (Except.ok.inj hh).symm

theorem colsOfM_length (m : Mat) : (colsOfM m).length = nColsM m := by
  simp [colsOfM]

theorem zip4_length {α β γ δ : Type}
    (as : List α) (bs : List β) (cs : List γ) (ds : List δ) :
    (zip4 as bs cs ds).length =
      min as.length (min bs.length (min cs.length ds.length)) := by
  simp [zip4, List.length_zip]

theorem correlationPlot_arr_length (ym ypm : Mat)
    (labels units : Option (List String))
    (hr : 1 < nRowsM ym) (hsh : shape2 ym = shape2 ypm)
    (hl : ∀ ls, labels = some ls → ls.length = nColsM ym)
    (hu : ∀ ls, units = some ls → ls.length = nColsM ym) :
    (correlationPlot (.arr (.two ym)) (.arr (.two ypm))
        labels units).length = nColsM ym := by
  have hrp : nRowsM ym = nRowsM ypm := congrArg Prod.fst hsh
  have hcp : nColsM ym = nColsM ypm := congrArg Prod.snd hsh
  have hry : ¬(nRowsM ym = 1) := by omega
  have hryp : ¬(nRowsM ypm = 1) := by omega
  dsimp only [correlationPlot, PdInput.toArr, atleast2dCol]
  rw [if_neg hry, if_neg hryp, List.length_map, zip4_length,
      colsOfM_length, colsOfM_length]
  cases labels with
  | none =>
    cases units with
    | none => simp [hcp]
    | some us => simp [hu us rfl, hcp]
  | some ls =>
    cases units with
    | none => simp [hl ls rfl, hcp]
    | some us => simp [hl ls rfl, hu us rfl, hcp]

theorem plotResiduals_ok_inv (X Y Yp : Arr)
    (xLabels xUnits yLabels yUnits : Option (List String))
    (figs : List ResFig)
    (h : plotResiduals X Y Yp xLabels xUnits yLabels yUnits = .ok figs) :
    figs.length = nColsM (atleast2dCol X) ∧
    shape2 (atleast2dCol Y) = shape2 (atleast2dCol Yp) ∧
    nRowsM (atleast2dCol X) = nRowsM (atleast2dCol Y) ∧
    (∀ ls, xLabels = some ls → ls.length = nColsM (atleast2dCol X)) ∧
    (∀ ls us, xLabels = some ls → xUnits = some us →
      us.length = ls.length) ∧
    (∀ us, xLabels = none → xUnits = some us →
      us.length = nColsM (atleast2dCol X)) ∧
    (∀ ls, yLabels = some ls → ls.length = nColsM (atleast2dCol Y)) ∧
    (∀ ls us, yLabels = some ls → yUnits = some us →
      us.length = ls.length) ∧
    (∀ us, yLabels = none → yUnits = some us →
      us.length = nColsM (atleast2dCol Y)) := by
  dsimp only [plotResiduals] at h
  split at h
  · exact absurd h (by simp)
  next hsh =>
  split at h
  · exact absurd h (by simp)
  next hrows =>
  split at h
  next e heq => exact absurd h (by simp)
  next xL heq =>
  have hxlab : (∀ ls, xLabels = some ls → ls.length = nColsM (atleast2dCol X))
      ∧ xL.length = nColsM (atleast2dCol X) := by
    split at heq
    · cases heq
      exact ⟨fun ls hls => by simp_all, by simp⟩
    next ls =>
      split at heq
      · exact absurd heq (by simp)
      next hlen =>
        cases heq
        exact ⟨fun ls' hls' => by cases hls'; exact not_not.mp hlen,
               not_not.mp hlen⟩
  split at h
  next e heq2 => exact absurd h (by simp)
  next xL2 heq2 =>
  have hxunit : (∀ ls us, xLabels = some ls → xUnits = some us →
      us.length = ls.length) ∧
      (∀ us, xLabels = none → xUnits = some us →
        us.length = nColsM (atleast2dCol X)) ∧
      xL2.length = xL.length := by
    split at heq2
    · cases heq2
      exact ⟨fun ls us _ hus => by simp_all, fun us _ hus => by simp_all, rfl⟩
    next us =>
      split at heq2
      · exact absurd heq2 (by simp)
      next hlen2 =>
        have husl : us.length = xL.length := not_not.mp hlen2
        cases heq2
        constructor
        · intro ls us' hls hus'
          cases hus'
          rw [husl]
          exact hxlab.2.trans (hxlab.1 ls hls).symm
        constructor
        · intro us' hnone hus'
          cases hus'
          rw [husl, hxlab.2]
        · simp [List.length_zipWith, husl]
  split at h
  next e heq3 => exact absurd h (by simp)
  next yL heq3 =>
  have hylab : (∀ ls, yLabels = some ls → ls.length = nColsM (atleast2dCol Y))
      ∧ yL.length = nColsM (atleast2dCol Y) := by
    split at heq3
    · cases heq3
      exact ⟨fun ls hls => by simp_all, by simp⟩
    next ls =>
      split at heq3
      · exact absurd heq3 (by simp)
      next hlen =>
        cases heq3
        exact ⟨fun ls' hls' => by cases hls'; exact not_not.mp hlen,
               not_not.mp hlen⟩
  split at h
  next e heq4 => exact absurd h (by simp)
  next yL2 heq4 =>
  have hyunit : (∀ ls us, yLabels = some ls → yUnits = some us →
      us.length = ls.length) ∧
      (∀ us, yLabels = none → yUnits = some us →
        us.length = nColsM (atleast2dCol Y)) := by
    split at heq4
    · exact ⟨fun ls us _ hus => by simp_all, fun us _ hus => by simp_all⟩
    next us =>
      split at heq4
      · exact absurd heq4 (by simp)
      next hlen2 =>
        have husl : us.length = yL.length := by
          have := not_not.mp hlen2
          simpa using this
        constructor
        · intro ls us' hls hus'
          cases hus'
          rw [husl]
          exact hylab.2.trans (hylab.1 ls hls).symm
        · intro us' hnone hus'
          cases hus'
          rw [husl, hylab.2]
  cases h
  refine ⟨?_, by simpa using not_not.mp hsh, by simpa using not_not.mp hrows,
          hxlab.1, hxunit.1, hxunit.2.1, hylab.1, hyunit.1, hyunit.2⟩
  simp [List.enum_length, hxunit.2.2, hxlab.2]

/-- C3: `correlationPlot` on two-dimensional arrays of the same shape with
`k` columns and more than one row, with labels/units absent or of length
`k`, returns exactly `k` figures - one per column of `Y`; and every
`plotResiduals` call that passes its shape checks returns exactly one
figure per column of `X`. -/
theorem one_figure_per_column :
    (∀ (ym ypm : Mat) (labels units : Option (List String)),
      1 < nRowsM ym → shape2 ym = shape2 ypm →
      (∀ ls, labels = some ls → ls.length = nColsM ym) →
      (∀ ls, units = some ls → ls.length = nColsM ym) →
      (correlationPlot (.arr (.two ym)) (.arr (.two ypm))
          labels units).length = nColsM ym) ∧
    (∀ (X Y Yp : Arr) (xLabels xUnits yLabels yUnits : Option (List String))
        (figs : List ResFig),
      plotResiduals X Y Yp xLabels xUnits yLabels yUnits = .ok figs →
      figs.length = nColsM (atleast2dCol X)) :=
  ⟨fun ym ypm labels units hr hsh hl hu =>
    correlationPlot_arr_length ym ypm labels units hr hsh hl hu,
   fun X Y Yp xLabels xUnits yLabels yUnits figs h =>
    (plotResiduals_ok_inv X Y Yp xLabels xUnits yLabels yUnits figs h).1⟩

/-- Witness for C3: a 3-row, 2-column `Y`/`Yp` pair yields two correlation
figures; a 3-row, 2-column `X` yields two residual figures. -/
theorem one_figure_per_column_witness :
    (correlationPlot (.arr (.two [[1, 2], [3, 4], [5, 6]]))
        (.arr (.two [[1, 2], [3, 4], [5, 7]])) none none).length = 2 ∧
    ∀ figs, plotResiduals (.two [[1, 2], [3, 4], [5, 6]]) (.one [1, 2, 3])
        (.one [1, 2, 4]) none none none none = .ok figs →
      figs.length = 2 :=
  ⟨one_figure_per_column.1 [[1, 2], [3, 4], [5, 6]] [[1, 2], [3, 4], [5, 7]]
      none none (by decide) (by decide)
      (fun ls hls => by cases hls) (fun ls hls => by cases hls),
   fun figs h =>
    one_figure_per_column.2 (.two [[1, 2], [3, 4], [5, 6]]) (.one [1, 2, 3])
      (.one [1, 2, 4]) none none none none figs h⟩

/-- C5: whenever, after 1-D inputs are promoted to single-column matrices,
`Y` and `Yp` differ in shape, or `X` and `Y` differ in row count, or a
supplied `xLabels`/`yLabels` has a length different from the column count
of `X`/`Y`, or a supplied `xUnits`/`yUnits` has a length different from the
corresponding (resolved) labels list, `plotResiduals` raises before
creating any figure. -/
theorem plotResiduals_mismatch_raises (X Y Yp : Arr)
    (xLabels xUnits yLabels yUnits : Option (List String))
    (h : shape2 (atleast2dCol Y) ≠ shape2 (atleast2dCol Yp) ∨
         nRowsM (atleast2dCol X) ≠ nRowsM (atleast2dCol Y) ∨
         (∃ ls, xLabels = some ls ∧ ls.length ≠ nColsM (atleast2dCol X)) ∨
         (∃ us, xUnits = some us ∧
            us.length ≠ (match xLabels with
              | none => nColsM (atleast2dCol X)
              | some ls => ls.length)) ∨
         (∃ ls, yLabels = some ls ∧ ls.length ≠ nColsM (atleast2dCol Y)) ∨
         (∃ us, yUnits = some us ∧
            us.length ≠ (match yLabels with
              | none => nColsM (atleast2dCol Y)
              | some ls => ls.length))) :
    ∃ e, plotResiduals X Y Yp xLabels xUnits yLabels yUnits = .error e := by
  rcases hres : plotResiduals X Y Yp xLabels xUnits yLabels yUnits
    with e | figs
  · exact ⟨e, rfl⟩
  · exfalso
    obtain ⟨-, hsh, hrows, hxl, hxlu, hxu, hyl, hylu, hyu⟩ :=
      plotResiduals_ok_inv X Y Yp xLabels xUnits yLabels yUnits figs hres
    rcases h with h | h | ⟨ls, hls, hne⟩ | ⟨us, hus, hne⟩
      | ⟨ls, hls, hne⟩ | ⟨us, hus, hne⟩
    · exact h hsh
    · exact h hrows
    · exact hne (hxl ls hls)
    · cases xLabels with
      | none => exact hne (hxu us rfl hus)
      | some ls => exact hne (hxlu ls us rfl hus)
    · exact hne (hyl ls hls)
    · cases yLabels with
      | none => exact hne (hyu us rfl hus)
      | some ls => exact hne (hylu ls us rfl hus)

/-- Witness for C5: a row-count mismatch between `X` and `Y` makes
`plotResiduals` raise. -/
theorem plotResiduals_mismatch_raises_witness :
    ∃ e, plotResiduals (.two [[1], [2], [3]]) (.one [1, 2]) (.one [1, 2])
      none none none none = .error e :=
  plotResiduals_mismatch_raises (.two [[1], [2], [3]]) (.one [1, 2])
    (.one [1, 2]) none none none none (Or.inr (Or.inl (by decide)))

/-- Witness for C9: concrete calls with `ax=None` create one figure and
return it; concrete calls with axis 4 (resp. 5) create none and return
that axis. -/
theorem precRec_fig_ax_semantics_witness :
    ((plotPrecRec [1, 0] [0, 1] none none).1 = 1 ∧
      PlotHandle.fig = PlotHandle.fig) ∧
    ((plotPrecRec [1, 0] [0, 1] (some 4) none).1 = 0 ∧
      PlotHandle.axis 4 = PlotHandle.axis 4) ∧
    ((plotPrecRecMN 9 ⟨2, [0, 1], none⟩ [[1, 2], [3, 4]] none
        (some ["m", "n"])).1 = 1 ∧
      PlotHandle.fig = PlotHandle.fig) ∧
    ((plotPrecRecMN 9 ⟨2, [0, 1], none⟩ [[1, 2], [3, 4]] (some 5)
        (some ["m", "n"])).1 = 0 ∧
      PlotHandle.axis 5 = PlotHandle.axis 5) :=
  ⟨⟨(precRec_fig_ax_semantics.1 [1, 0] [0, 1] none).1,
    (precRec_fig_ax_semantics.1 [1, 0] [0, 1] none).2 .fig rfl⟩,
   ⟨(precRec_fig_ax_semantics.2.1 [1, 0] [0, 1] 4 none).1,
    (precRec_fig_ax_semantics.2.1 [1, 0] [0, 1] 4 none).2 (.axis 4) rfl⟩,
   ⟨(precRec_fig_ax_semantics.2.2.1 9 ⟨2, [0, 1], none⟩ [[1, 2], [3, 4]]
      (some ["m", "n"])).1,
    (precRec_fig_ax_semantics.2.2.1 9 ⟨2, [0, 1], none⟩ [[1, 2], [3, 4]]
      (some ["m", "n"])).2 .fig rfl⟩,
   ⟨(precRec_fig_ax_semantics.2.2.2 9 ⟨2, [0, 1], none⟩ [[1, 2], [3, 4]] 5
      (some ["m", "n"])).1,
    (precRec_fig_ax_semantics.2.2.2 9 ⟨2, [0, 1], none⟩ [[1, 2], [3, 4]] 5
      (some ["m", "n"])).2 (.axis 5) rfl⟩⟩

instance : Inhabited RModel := ⟨⟨"", ⟨[], []⟩, []⟩⟩

theorem predictCols_ok (rpred : RModel → Frame → List Int)
    (models : List (String × RModel)) (X : Frame) (ls : List String)
    (h : ∀ l ∈ ls, ((models.find? fun p => p.1 == l)).isSome) :
    predictCols rpred models X ls =
      .ok (ls.map fun l =>
        rpred (((models.find? fun p => p.1 == l).map Prod.snd).getD default)
          X) := by
  induction ls with
  | nil => rfl
  | cons l ls ih =>
    obtain ⟨m, hm⟩ :=
      Option.isSome_iff_exists.mp (h l (List.mem_cons_self l ls))
    have hrest := ih fun l' hl' => h l' (List.mem_cons_of_mem l hl')
    unfold predictCols
    rw [hm]
    simp only [Option.map_some']
    rw [hrest]
    simp [hm]

/-- C7: on a fitted estimator, `predictD` returns a DataFrame whose
columns are exactly `yLabels` in order, each holding the external
package's predictions (`rpred`) for that response's fitted model; and
`predict(X)` is `predictD` applied to a DataFrame built from `X` with
columns `xLabels`. -/
theorem predictD_predict_spec :
    (∀ (rpred : RModel → Frame → List Int) (s : LMEState) (data : Frame)
        (ms : List (String × RModel)) (X : Frame),
      s.models? = some ms → s.factors?.isSome = true →
      createX s data = .ok X → checkArrayF X = none →
      (∀ l ∈ s.yLabels, ((ms.find? fun p => p.1 == l)).isSome) →
      predictD rpred s data =
        .ok ⟨s.yLabels,
             s.yLabels.map fun l =>
               rpred (((ms.find? fun p => p.1 == l).map Prod.snd).getD
                 default) X⟩) ∧
    (∀ (rpred : RModel → Frame → List Int) (s : LMEState) (Xm : Mat),
      checkArrayM Xm = none → s.xLabels.length = nColsM Xm →
      predict rpred s Xm = predictD rpred s ⟨s.xLabels, colsOfM Xm⟩) := by
  constructor
  · intro rpred s data ms X hm hf hX hA hk
    obtain ⟨fs, hfs⟩ := Option.isSome_iff_exists.mp hf
    unfold predictD
    rw [hm, hfs]
    simp only [Option.isNone_some, Bool.or_self, Bool.false_eq_true,
      if_false, hX, hA, Option.getD_some]
    rw [predictCols_ok rpred ms X s.yLabels hk]
  · intro rpred s Xm hA hlen
    unfold predict mkDataFrame
    rw [hA]
    rw [if_neg (not_not_intro hlen)]

/-- Witness for C7: a one-predictor, two-response fitted estimator
predicts a DataFrame with columns `["a", "b"]` from each stored model, and
`predict` routes through the DataFrame built from `X`. -/
theorem predictD_predict_spec_witness :
    predictD (fun m _ => [m.data.nRows])
      ⟨["x"], ["a", "b"], .tup ["f", "f"], [],
       some [("a", ⟨"fa", ⟨[], []⟩, []⟩), ("b", ⟨"fb", ⟨[], []⟩, []⟩)],
       some [], none⟩
      ⟨["x"], [[1, 2, 3]]⟩ =
      .ok ⟨["a", "b"], [[0], [0]]⟩ ∧
    predict (fun m _ => [m.data.nRows])
      ⟨["x"], ["a"], .tup ["f"], [],
       some [("a", ⟨"fa", ⟨[], []⟩, []⟩)], some [], none⟩ [[5], [6]] =
      predictD (fun m _ => [m.data.nRows])
        ⟨["x"], ["a"], .tup ["f"], [],
         some [("a", ⟨"fa", ⟨[], []⟩, []⟩)], some [], none⟩
        ⟨["x"], colsOfM [[5], [6]]⟩ :=
  ⟨by
    rw [predictD_predict_spec.1 (fun m _ => [m.data.nRows])
      ⟨["x"], ["a", "b"], .tup ["f", "f"], [],
       some [("a", ⟨"fa", ⟨[], []⟩, []⟩), ("b", ⟨"fb", ⟨[], []⟩, []⟩)],
       some [], none⟩
      ⟨["x"], [[1, 2, 3]]⟩
      [("a", ⟨"fa", ⟨[], []⟩, []⟩), ("b", ⟨"fb", ⟨[], []⟩, []⟩)]
      ⟨["x"], [[1, 2, 3]]⟩ rfl rfl rfl (by decide) (by decide)]
    rfl,
   predictD_predict_spec.2 (fun m _ => [m.data.nRows])
     ⟨["x"], ["a"], .tup ["f"], [],
      some [("a", ⟨"fa", ⟨[], []⟩, []⟩)], some [], none⟩ [[5], [6]]
     (by decide) (by decide)⟩

theorem collectCols_isSome_ok (data : Frame) (ls : List String)
    (h : ∀ n ∈ ls, (data.getCol n).isSome) :
    ∃ cs, collectCols data ls = .ok cs := by
  induction ls with
  | nil => exact ⟨[], rfl⟩
  | cons n ns ih =>
    obtain ⟨c, hc⟩ :=
      Option.isSome_iff_exists.mp (h n (List.mem_cons_self n ns))
    obtain ⟨cs, hcs⟩ := ih fun n' hn' => h n' (List.mem_cons_of_mem n hn')
    exact ⟨c :: cs, by unfold collectCols; rw [hc, hcs]⟩

theorem fitD_fst_pres (s : LMEState) (d : Frame) :
    (fitD s d).1.yLabels = s.yLabels ∧
    (fitD s d).1.cvResults? = s.cvResults? := by
  unfold fitD
  split
  · exact ⟨rfl, rfl⟩
  · rcases hr : reconcileFormulas s with ⟨s1, e?⟩
    have h1 : s1.yLabels = s.yLabels := by
      have := (reconcileFormulas_fst s).1; rw [hr] at this; exact this
    have h2 : s1.cvResults? = s.cvResults? := by
      have := (reconcileFormulas_fst s).2.2.1; rw [hr] at this; exact this
    cases e? with
    | some e => exact ⟨h1, h2⟩
    | none =>
      exact ⟨((fitModels_fst s1 d).2.1).trans h1,
             ((fitModels_fst s1 d).2.2.2).trans h2⟩

theorem chooseLoop_calls (gscv : GSCVCall → String) (data : Frame)
    (formulas : List String) (n_jobs : Int) (cv : Option Int) :
    ∀ (labs : List String) (s : LMEState) (choices : List String),
      (∀ c ∈ s.cvResults?.getD [], c.n_jobs = n_jobs ∧ c.cv = cv) →
      ∀ c ∈ ((chooseLoop gscv data formulas n_jobs cv s choices
          labs).1.cvResults?.getD []),
        c.n_jobs = n_jobs ∧ c.cv = cv := by
  intro labs
  induction labs with
  | nil => exact fun s choices hs c hc => hs c hc
  | cons l ls ih =>
    intro s choices hs
    dsimp only [chooseLoop]
    rcases hx : createX { s with yLabels := [l] } data with e | X
    · exact hs
    · rcases hy : createY { s with yLabels := [l] } data with e | Y
      · exact hs
      · refine ih _ _ fun c hc => ?_
        simp only [Option.getD_some] at hc
        rcases List.mem_append.mp hc with hc | hc
        · exact hs c hc
        · rcases List.mem_singleton.mp hc with rfl
          exact ⟨rfl, rfl⟩

theorem chooseLoop_no_error (gscv : GSCVCall → String) (data : Frame)
    (formulas : List String) (n_jobs : Int) (cv : Option Int) :
    ∀ (labs : List String) (s : LMEState) (choices : List String),
      (∀ n ∈ s.xLabels, (data.getCol n).isSome) →
      (∀ n ∈ labs, (data.getCol n).isSome) →
      (chooseLoop gscv data formulas n_jobs cv s choices labs).2.2 =
        none := by
  intro labs
  induction labs with
  | nil => intro s choices _ _; rfl
  | cons l ls ih =>
    intro s choices hx hl
    dsimp only [chooseLoop]
    obtain ⟨xs, hxs⟩ := collectCols_isSome_ok data s.xLabels hx
    have hcx : createX { s with yLabels := [l] } data = .ok ⟨s.xLabels, xs⟩ := by
      unfold createX
      rw [hxs]
    obtain ⟨c, hc⟩ :=
      Option.isSome_iff_exists.mp (hl l (List.mem_cons_self l ls))
    have hcy : createY { s with yLabels := [l] } data = .ok ⟨[l], [c]⟩ := by
      unfold createY collectCols
      rw [hc]
      rfl
    rw [hcx, hcy]
    exact ih _ _ hx fun n hn => hl n (List.mem_cons_of_mem l hn)

/-- C10: every call `chooseFormula` makes to the external `GridSearchCV`
routine carries `n_jobs` and `cv` exactly as given (recorded in
`cv_results_`), and when the per-response loop completes - in particular
whenever every `xLabels`/`yLabels` column is present in `data` - the
estimator's `yLabels` is restored to the full list it held before the
call, including when `refit` then refits. -/
theorem chooseFormula_forwards_and_restores :
    (∀ (gscv : GSCVCall → String) (s : LMEState) (data : Frame)
        (formulas : List String) (n_jobs : Int) (cv : Option Int)
        (refit : Bool),
      ∀ c ∈ ((chooseFormula gscv s data formulas n_jobs cv
          refit).1.cvResults?.getD []),
        c.n_jobs = n_jobs ∧ c.cv = cv) ∧
    (∀ (gscv : GSCVCall → String) (s : LMEState) (data : Frame)
        (formulas : List String) (n_jobs : Int) (cv : Option Int)
        (refit : Bool),
      (∀ n ∈ s.xLabels, (data.getCol n).isSome) →
      (∀ n ∈ s.yLabels, (data.getCol n).isSome) →
      (chooseFormula gscv s data formulas n_jobs cv refit).1.yLabels =
        s.yLabels) := by
  constructor
  · intro gscv s data formulas n_jobs cv refit c hc
    dsimp only [chooseFormula] at hc
    have hinv := chooseLoop_calls gscv data formulas n_jobs cv s.yLabels
      { s with cvResults? := some [] } [] (by simp)
    rcases hl : chooseLoop gscv data formulas n_jobs cv
        { s with cvResults? := some [] } [] s.yLabels
      with ⟨s1, choices, e?⟩
    rw [hl] at hc hinv
    cases e? with
    | some e => exact hinv c hc
    | none =>
      rcases hrf : refit with _ | _ <;> rw [hrf] at hc <;>
        dsimp only at hc
      · exact hinv c hc
      · rw [if_pos rfl] at hc
        have hpres := (fitD_fst_pres
          { s1 with formulas := .tup choices, yLabels := s.yLabels }
          data).2
        rw [hpres] at hc
        exact hinv c hc
  · intro gscv s data formulas n_jobs cv refit hx hy
    dsimp only [chooseFormula]
    rcases hl : chooseLoop gscv data formulas n_jobs cv
        { s with cvResults? := some [] } [] s.yLabels
      with ⟨s1, choices, e?⟩
    have hnone := chooseLoop_no_error gscv data formulas n_jobs cv
      s.yLabels { s with cvResults? := some [] } [] hx hy
    rw [hl] at hnone
    simp only at hnone
    cases e? with
    | some e => exact absurd hnone (by simp)
    | none =>
      rcases hrf : refit with _ | _
      · rfl
      · exact (fitD_fst_pres
          { s1 with formulas := .tup choices, yLabels := s.yLabels } data).1

/-- Witness for C10: a two-response grid search records both external
calls with `n_jobs = -1`, `cv = 3` and restores `yLabels` afterwards. -/
theorem chooseFormula_forwards_and_restores_witness :
    (∀ c ∈ ((chooseFormula (fun c => c.yLabel)
        ⟨["x"], ["a", "b"], .tup [], [], none, none, none⟩
        ⟨["x", "a", "b"], [[1], [2], [3]]⟩ ["f1", "f2"] (-1) (some 3)
        false).1.cvResults?.getD []),
      c.n_jobs = -1 ∧ c.cv = some 3) ∧
    (chooseFormula (fun c => c.yLabel)
        ⟨["x"], ["a", "b"], .tup [], [], none, none, none⟩
        ⟨["x", "a", "b"], [[1], [2], [3]]⟩ ["f1", "f2"] (-1) (some 3)
        false).1.yLabels = ["a", "b"] :=
  ⟨chooseFormula_forwards_and_restores.1 (fun c => c.yLabel)
    ⟨["x"], ["a", "b"], .tup [], [], none, none, none⟩
    ⟨["x", "a", "b"], [[1], [2], [3]]⟩ ["f1", "f2"] (-1) (some 3) false,
   chooseFormula_forwards_and_restores.2 (fun c => c.yLabel)
    ⟨["x"], ["a", "b"], .tup [], [], none, none, none⟩
    ⟨["x", "a", "b"], [[1], [2], [3]]⟩ ["f1", "f2"] (-1) (some 3) false
    (by decide) (by decide)⟩

end Statcast
